import Mathlib

/-!
Shallow embedding of the Structural-Health-Monitoring repository's
anomaly-detection and alert-dispatch engine, together with proofs about it.

Sources embedded:
  * `src/models.py`              — `SensorReading`, `MLModel`, `AlertLog` rows
  * `src/config.py`              — `Config.ALERT_THRESHOLDS`, ML intervals
  * `src/services/sensor_service.py` — `SensorService.check_thresholds`
  * `src/services/alert_service.py`  — `AlertService.check_and_send_alerts`,
    `_check_alert_fatigue`, `send_email_alert`, `send_sms_alert`, `_log_alert`
  * `src/services/ml_service.py`     — `MLService.train_isolation_forest`,
    `train_one_class_svm`, `retrain_if_needed`, `predict_anomaly`

Python floats are embedded as rationals (every constant in the configuration
and in the concrete scenarios is an exact decimal, on which float and
rational comparison agree).  Timestamps are embedded as integer epoch
seconds in UTC.  External collaborators — the mail gateway, the Twilio SMS
gateway, the sklearn fitting/prediction routines, and the reliability of the
database query used by the fatigue gate — are oracles supplied in an
environment record, exactly at the boundary where the Python code calls out
or catches an exception.
-/

namespace SHM

/-- Row of `sensor_readings` (`src/models.py`, class `SensorReading`). -/
structure SensorReading where
  rid : Nat
  timestamp : Int
  vibration : ℚ
  strain : ℚ
  temperature : ℚ
  is_anomaly : Bool := false
  anomaly_score : ℚ := 0
  alert_level : String := "normal"
  alert_sent : Bool := false
deriving Repr, DecidableEq

/-- Row of `alert_logs` (`src/models.py`, class `AlertLog`). -/
structure AlertLog where
  reading_id : Nat
  alert_type : String
  alert_level : String
  recipient : String
  message : String
  sent_at : Int
  success : Bool
  error_message : Option String
deriving Repr, DecidableEq

/-- Row of `ml_models` (`src/models.py`, class `MLModel`).  `model_params`
holds the JSON string of hyperparameters; `accuracy_score` is never written
by the services and is omitted. -/
structure MLModelRec where
  mid : Nat
  model_name : String
  model_type : String
  training_data_size : Nat
  created_at : Int
  is_active : Bool
  model_params : String
deriving Repr, DecidableEq

/-- Warning/critical floors for one metric
(`src/config.py`, `Config.ALERT_THRESHOLDS` entries). -/
structure Limits where
  warning : ℚ
  critical : ℚ
deriving Repr, DecidableEq

/-- Exact decimal constant `n/10`, written through `Rat.divInt` so that the
kernel can evaluate comparisons on it (the scientific-notation literals of
`ℚ` are irreducible). -/
def dec (n : Int) : ℚ := Rat.divInt n 10

/-- The threshold table `Config.ALERT_THRESHOLDS` (`src/config.py`,
lines 27–31), in its Python dict iteration order. -/
def ALERT_THRESHOLDS : List (String × Limits) :=
  [("vibration", { warning := dec 20, critical := dec 25 }),
   ("strain", { warning := dec 5, critical := dec 7 }),
   ("temperature", { warning := dec 350, critical := dec 400 })]

/-- Constant `Config.ML_TRAINING_DATA_SIZE` (`src/config.py`, line 35). -/
def ML_TRAINING_DATA_SIZE : Nat := 1000

/-- Constant `Config.ML_MODEL_RETRAIN_INTERVAL = timedelta(hours=24)`
(`src/config.py`, line 34), in seconds. -/
def ML_MODEL_RETRAIN_INTERVAL : Int := 86400

/-- Renders a rational as Python renders the corresponding float in an
f-string, valid for the multiples of 1/10 that occur in the threshold table
and the concrete scenarios (e.g. `2.6 ↦ "2.6"`, `40 ↦ "40.0"`). -/
def floatStr (q : ℚ) : String :=
  let t : Int := q.num * 10 / (q.den : Int)
  toString (t / 10) ++ "." ++ toString (t % 10)

/-- Embedding of `getattr(reading, sensor_type)` for the three metric names used in
`check_thresholds` (`src/services/sensor_service.py`, line 143). -/
def getMetric (r : SensorReading) (sensor_type : String) : ℚ :=
  if sensor_type = "vibration" then r.vibration
  else if sensor_type = "strain" then r.strain
  else r.temperature

/-- The critical breach message of `check_thresholds`
(`src/services/sensor_service.py`, line 147). -/
def criticalMsg (sensor_type : String) (value limit : ℚ) : String :=
  sensor_type.capitalize ++ " critical: " ++ floatStr value ++ " >= " ++ floatStr limit

/-- The warning breach message of `check_thresholds`
(`src/services/sensor_service.py`, line 150). -/
def warningMsg (sensor_type : String) (value limit : ℚ) : String :=
  sensor_type.capitalize ++ " warning: " ++ floatStr value ++ " >= " ++ floatStr limit

/-- The `for sensor_type, limits in thresholds.items()` loop of
`SensorService.check_thresholds` (`src/services/sensor_service.py`,
lines 142–150), carrying the loop state `(alert_level, messages)`. -/
def checkThresholdsAux (r : SensorReading) :
    List (String × Limits) → String → List String → String × List String
  | [], alert_level, messages => (alert_level, messages)
  | (sensor_type, limits) :: rest, alert_level, messages =>
    if limits.critical ≤ getMetric r sensor_type then
      checkThresholdsAux r rest "critical"
        (messages ++ [criticalMsg sensor_type (getMetric r sensor_type) limits.critical])
    else if limits.warning ≤ getMetric r sensor_type ∧ alert_level ≠ "critical" then
      checkThresholdsAux r rest "warning"
        (messages ++ [warningMsg sensor_type (getMetric r sensor_type) limits.warning])
    else
      checkThresholdsAux r rest alert_level messages

/-- Embedding of `SensorService.check_thresholds` (`src/services/sensor_service.py`,
lines 134–152): starts at level `"normal"` with no messages and folds the
threshold table. -/
def check_thresholds (r : SensorReading) : String × List String :=
  checkThresholdsAux r ALERT_THRESHOLDS "normal" []

/-- Environment for `AlertService`: the clock, the collaborator
configuration flags (`MAIL_USERNAME` present, Twilio client initialised),
the per-recipient outcome of the mail / SMS gateway calls (`true` = the
gateway call returns, `false` = it raises), and whether the database count
query of `_check_alert_fatigue` succeeds or raises. -/
structure AlertEnv where
  now : Int
  mailConfigured : Bool
  twilioConfigured : Bool
  emailSendOk : String → Bool
  smsSendOk : String → Bool
  fatigueQueryOk : Bool

/-- Abbreviation of the multi-line email body template of
`send_email_alert` (`src/services/alert_service.py`, lines 41–63); no claim
inspects the rendered body, only that it is stored in the log row. -/
def emailBody (r : SensorReading) (alert_level : String) (messages : List String) : String :=
  "SHM Alert - " ++ alert_level.toUpper ++ " at " ++ toString r.timestamp ++ ": "
    ++ String.intercalate "; " messages

/-- Abbreviation of the compact SMS body of `send_sms_alert`
(`src/services/alert_service.py`, lines 97–101): severity, time, values, and
only the first breach message. -/
def smsBody (r : SensorReading) (alert_level : String) (messages : List String) : String :=
  "SHM " ++ alert_level.toUpper ++ " ALERT at " ++ toString r.timestamp
    ++ (match messages with | [] => "" | m :: _ => " - " ++ m)

/-- Embedding of `AlertService._log_alert` (`src/services/alert_service.py`,
lines 124–139): appends one row to the `alert_logs` table. -/
def log_alert (logs : List AlertLog) (reading_id : Nat) (alert_type alert_level : String)
    (recipient message : String) (sent_at : Int) (success : Bool)
    (error_message : Option String) : List AlertLog :=
  logs ++ [{ reading_id := reading_id, alert_type := alert_type,
             alert_level := alert_level, recipient := recipient, message := message,
             sent_at := sent_at, success := success, error_message := error_message }]

/-- Embedding of `AlertService.send_email_alert` (`src/services/alert_service.py`,
lines 32–87).  Returns whether the dict was a success dict, and the updated
log table: unconfigured mail returns an error dict without logging; a
successful gateway call logs `success=True`; a raising gateway call is
caught and logs `success=False` with an error message. -/
def send_email_alert (env : AlertEnv) (r : SensorReading) (alert_level : String)
    (messages : List String) (recipient : String) (logs : List AlertLog) :
    Bool × List AlertLog :=
  if env.mailConfigured = false then
    (false, logs)
  else if env.emailSendOk recipient then
    (true, log_alert logs r.rid "email" alert_level recipient
             (emailBody r alert_level messages) env.now true none)
  else
    (false, log_alert logs r.rid "email" alert_level recipient "" env.now false
              (some "Error sending email alert"))

/-- Embedding of `AlertService.send_sms_alert` (`src/services/alert_service.py`,
lines 89–122), same shape as the email channel with the Twilio client. -/
def send_sms_alert (env : AlertEnv) (r : SensorReading) (alert_level : String)
    (messages : List String) (recipient : String) (logs : List AlertLog) :
    Bool × List AlertLog :=
  if env.twilioConfigured = false then
    (false, logs)
  else if env.smsSendOk recipient then
    (true, log_alert logs r.rid "sms" alert_level recipient
             (smsBody r alert_level messages) env.now true none)
  else
    (false, log_alert logs r.rid "sms" alert_level recipient "" env.now false
              (some "Error sending SMS alert"))

/-- The `for recipient in email_recipients` loop of `check_and_send_alerts`
(`src/services/alert_service.py`, lines 166–168), collecting the per-attempt
results list entries `(type, recipient, success?)`. -/
def sendEmailAlerts (env : AlertEnv) (r : SensorReading) (alert_level : String)
    (messages : List String) :
    List String → List AlertLog → List (String × String × Bool) × List AlertLog
  | [], logs => ([], logs)
  | recipient :: rest, logs =>
    let one := send_email_alert env r alert_level messages recipient logs
    let more := sendEmailAlerts env r alert_level messages rest one.2
    (("email", recipient, one.1) :: more.1, more.2)

/-- The `for recipient in sms_recipients` loop of `check_and_send_alerts`
(`src/services/alert_service.py`, lines 172–174). -/
def sendSmsAlerts (env : AlertEnv) (r : SensorReading) (alert_level : String)
    (messages : List String) :
    List String → List AlertLog → List (String × String × Bool) × List AlertLog
  | [], logs => ([], logs)
  | recipient :: rest, logs =>
    let one := send_sms_alert env r alert_level messages recipient logs
    let more := sendSmsAlerts env r alert_level messages rest one.2
    (("sms", recipient, one.1) :: more.1, more.2)

/-- The hard-coded default recipients of `check_and_send_alerts`
(`src/services/alert_service.py`, lines 162–163). -/
def email_recipients : List String := ["admin@example.com"]

/-- Hard-coded SMS recipients (`src/services/alert_service.py`, line 163). -/
def sms_recipients : List String := ["+1234567890"]

/-- Embedding of `AlertService._check_alert_fatigue` (`src/services/alert_service.py`,
lines 182–198): counts `alert_logs` rows of the given level with
`success=True` and `sent_at >= now - 1h`; a raising query is caught and the
check reports `False` (fail-open). -/
def check_alert_fatigue (env : AlertEnv) (logs : List AlertLog)
    (alert_level : String) : Bool :=
  if env.fatigueQueryOk then
    decide (5 ≤ (logs.filter (fun a =>
      decide (a.alert_level = alert_level ∧ env.now - 3600 ≤ a.sent_at
        ∧ a.success = true))).length)
  else
    false

/-- The dict returned by `check_and_send_alerts`: one of the three
short-circuit messages, or the `alerts_sent` results list. -/
inductive DispatchOutcome where
  | noAlertsNeeded
  | alreadySent
  | fatigueSuppressed
  | alertsSent (results : List (String × String × Bool))
deriving Repr, DecidableEq

/-- Embedding of `AlertService.check_and_send_alerts` (`src/services/alert_service.py`,
lines 145–180): the three short-circuits (normal level, already sent,
fatigue), then emails to every email recipient, SMS to every SMS recipient
when the level is critical, then `reading.alert_sent = True`.  Returns the
outcome dict, the updated reading row, and the updated log table. -/
def check_and_send_alerts (env : AlertEnv) (r : SensorReading) (alert_level : String)
    (messages : List String) (logs : List AlertLog) :
    DispatchOutcome × SensorReading × List AlertLog :=
  if alert_level = "normal" then
    (.noAlertsNeeded, r, logs)
  else if r.alert_sent then
    (.alreadySent, r, logs)
  else if check_alert_fatigue env logs alert_level then
    (.fatigueSuppressed, r, logs)
  else
    let e := sendEmailAlerts env r alert_level messages email_recipients logs
    let s := if alert_level = "critical" then
               sendSmsAlerts env r alert_level messages sms_recipients e.2
             else ([], e.2)
    (.alertsSent (e.1 ++ s.1), { r with alert_sent := true }, s.2)

/-- The two detector families fitted by `MLService`
(`sklearn.ensemble.IsolationForest` / `sklearn.svm.OneClassSVM`); the
fitted artifact itself lives behind the external fitting routine, only its
kind is observable on the service instance. -/
inductive ModelKind where
  | isolationForest
  | oneClassSVM
deriving Repr, DecidableEq

/-- In-memory state of one `MLService` instance (`src/services/ml_service.py`,
lines 20–23): `self.model`, `self.scaler` (present or not), and
`self.model_type`. -/
structure MLSvc where
  model : Option ModelKind
  scaler : Bool
  model_type : String
deriving Repr, DecidableEq

/-- Embedding of `MLService.__init__` (`src/services/ml_service.py`, lines 20–23). -/
def MLSvc.init : MLSvc :=
  { model := none, scaler := false, model_type := "IsolationForest" }

/-- The database state the ML service reads and writes: the
`sensor_readings` table, the `ml_models` table, and the id the next
inserted `MLModel` row receives from the primary-key sequence. -/
structure MLDb where
  readings : List SensorReading
  models : List MLModelRec
  nextModelId : Nat
deriving Repr, DecidableEq

/-- Environment for `MLService`: the clock, whether the sklearn
scale-and-fit sequence succeeds or raises (and the exception text), and the
fitted model's behaviour at prediction time (`predictRaises` models any
exception inside the `try` of `predict_anomaly`; the two functions are the
external model's label and decision score on a feature vector). -/
structure MLEnv where
  now : Int
  fitOk : Bool
  fitErrMsg : String
  predictRaises : Bool
  predictOutlier : List ℚ → Bool
  decisionScore : List ℚ → ℚ

/-- Insertion of one element into a list sorted descending by `key`. -/
def insertByDesc {α : Type} (key : α → Int) (a : α) : List α → List α
  | [] => [a]
  | x :: xs => if key x ≤ key a then a :: x :: xs else x :: insertByDesc key a xs

/-- Descending sort by `key`, embedding the `order_by(... .desc())`
clauses of the service queries. -/
def sortByDesc {α : Type} (key : α → Int) : List α → List α
  | [] => []
  | x :: xs => insertByDesc key x (sortByDesc key xs)

/-- The training-data selection query shared by both trainers
(`src/services/ml_service.py`, lines 50–55 and 112–117): readings of the
last 7 days, newest first, at most `ML_TRAINING_DATA_SIZE`. -/
def selectTraining (now : Int) (readings : List SensorReading) : List SensorReading :=
  (sortByDesc (fun r => r.timestamp)
    (readings.filter (fun r => decide (now - 604800 ≤ r.timestamp)))).take
    ML_TRAINING_DATA_SIZE

/-- Result dict of the two trainers: the error dict, or the success dict
(its `anomalies_detected` entry, a statistic of the external fitted model's
self-predictions, is used by no caller or claim and is not modelled). -/
inductive TrainResult where
  | error (msg : String)
  | ok (model_type : String) (training_samples : Nat) (model_id : Nat)
deriving Repr, DecidableEq

/-- The `MLModel` row written by `train_isolation_forest`
(`src/services/ml_service.py`, lines 80–89); `is_active` takes the column
default `True`, the name's `strftime` timestamp is rendered as epoch
seconds. -/
def mkIsoRec (now : Int) (mid size : Nat) (contam : ℚ) : MLModelRec :=
  { mid := mid,
    model_name := "isolation_forest_" ++ toString now,
    model_type := "IsolationForest",
    training_data_size := size,
    created_at := now,
    is_active := true,
    model_params := "\x7b\x22contamination\x22: " ++ floatStr contam
      ++ ", \x22n_estimators\x22: 100, \x22random_state\x22: 42\x7d" }

/-- The `MLModel` row written by `train_one_class_svm`
(`src/services/ml_service.py`, lines 142–151). -/
def mkSvmRec (now : Int) (mid size : Nat) (nu : ℚ) : MLModelRec :=
  { mid := mid,
    model_name := "one_class_svm_" ++ toString now,
    model_type := "OneClassSVM",
    training_data_size := size,
    created_at := now,
    is_active := true,
    model_params := "\x7b\x22nu\x22: " ++ floatStr nu
      ++ ", \x22kernel\x22: \x22rbf\x22, \x22gamma\x22: \x22scale\x22\x7d" }

/-- Embedding of `MLService.train_isolation_forest` (`src/services/ml_service.py`,
lines 46–106).  Fewer than 50 selected readings returns the
`Insufficient training data` error before touching the service instance or
the database.  A raising sklearn fit is caught and rolled back, the freshly
assigned (unfitted) scaler object remaining on the instance.  On success the
fitted model and scaler replace the in-memory slots and a new active
`MLModel` row is appended — no existing row is deactivated. -/
def train_isolation_forest (env : MLEnv) (svc : MLSvc) (db : MLDb)
    (contamination : ℚ) : TrainResult × MLSvc × MLDb :=
  if (selectTraining env.now db.readings).length < 50 then
    (.error "Insufficient training data", svc, db)
  else if env.fitOk = false then
    (.error env.fitErrMsg, { svc with scaler := true }, db)
  else
    (.ok "IsolationForest" (selectTraining env.now db.readings).length db.nextModelId,
     { svc with model := some .isolationForest, scaler := true },
     { db with
         models := db.models
           ++ [mkIsoRec env.now db.nextModelId
                 (selectTraining env.now db.readings).length contamination],
         nextModelId := db.nextModelId + 1 })

/-- Embedding of `MLService.train_one_class_svm` (`src/services/ml_service.py`,
lines 108–168): identical control flow to the forest trainer with the SVM
row. -/
def train_one_class_svm (env : MLEnv) (svc : MLSvc) (db : MLDb)
    (nu : ℚ) : TrainResult × MLSvc × MLDb :=
  if (selectTraining env.now db.readings).length < 50 then
    (.error "Insufficient training data", svc, db)
  else if env.fitOk = false then
    (.error env.fitErrMsg, { svc with scaler := true }, db)
  else
    (.ok "OneClassSVM" (selectTraining env.now db.readings).length db.nextModelId,
     { svc with model := some .oneClassSVM, scaler := true },
     { db with
         models := db.models
           ++ [mkSvmRec env.now db.nextModelId
                 (selectTraining env.now db.readings).length nu],
         nextModelId := db.nextModelId + 1 })

/-- The `MLModel.query.filter_by(model_type=..., is_active=True)
.order_by(created_at.desc()).first()` query of `retrain_if_needed` and
`get_model_info` (`src/services/ml_service.py`, lines 246–249). -/
def latestActiveModel (db : MLDb) (model_type : String) : Option MLModelRec :=
  (sortByDesc (fun m => m.created_at)
    (db.models.filter (fun m =>
      decide (m.model_type = model_type ∧ m.is_active = true)))).head?

/-- Embedding of `latest_model.is_active = False; db.session.commit()`
(`src/services/ml_service.py`, lines 261–262). -/
def deactivateModel (db : MLDb) (mid : Nat) : MLDb :=
  { db with models := db.models.map (fun m =>
      if m.mid = mid then { m with is_active := false } else m) }

/-- Result dict of `retrain_if_needed`: a training-run result, or the
`Model is up to date` message. -/
inductive RetrainResult where
  | trained (t : TrainResult)
  | upToDate
deriving Repr, DecidableEq

/-- Embedding of `MLService.retrain_if_needed` (`src/services/ml_service.py`,
lines 243–270): with no active model it trains unconditionally; with an
active model older than `ML_MODEL_RETRAIN_INTERVAL` it deactivates that row,
commits, and then trains; otherwise it is a no-op. -/
def retrain_if_needed (env : MLEnv) (svc : MLSvc) (db : MLDb) :
    RetrainResult × MLSvc × MLDb :=
  match latestActiveModel db svc.model_type with
  | none =>
    let t := train_isolation_forest env svc db (dec 1)
    (.trained t.1, t.2.1, t.2.2)
  | some m =>
    if ML_MODEL_RETRAIN_INTERVAL < env.now - m.created_at then
      let t := train_isolation_forest env svc (deactivateModel db m.mid) (dec 1)
      (.trained t.1, t.2.1, t.2.2)
    else
      (.upToDate, svc, db)

/-- Embedding of the `MLService.prepare_training_data` feature row for one reading
(`src/services/ml_service.py`, lines 35–41): the three metrics plus
hour-of-day and weekday derived from the UTC timestamp (rendered from epoch
seconds; Python's Monday-is-0 convention, epoch day 0 a Thursday — valid for
the nonnegative timestamps in use). -/
def featureVector (r : SensorReading) : List ℚ :=
  [r.vibration, r.strain, r.temperature,
   ((r.timestamp / 3600) % 24 : Int), (((r.timestamp / 86400) + 3) % 7 : Int)]

/-- The `try` block of `predict_anomaly` (`src/services/ml_service.py`,
lines 179–202): scale, predict, score; any exception is caught and the
non-anomalous default `(False, 0.0)` returned. -/
def predictCore (env : MLEnv) (svc : MLSvc) (db : MLDb) (r : SensorReading) :
    (Bool × ℚ) × MLSvc × MLDb :=
  if env.predictRaises then
    ((false, 0), svc, db)
  else
    ((env.predictOutlier (featureVector r),
      env.decisionScore (featureVector r)), svc, db)

/-- Embedding of `MLService.predict_anomaly` (`src/services/ml_service.py`,
lines 170–202): with no in-memory model or scaler it first runs the lazy
bootstrap `train_isolation_forest`; a failed bootstrap returns
`(False, 0.0)`, otherwise prediction proceeds on the freshly trained
state. -/
def predict_anomaly (env : MLEnv) (svc : MLSvc) (db : MLDb) (r : SensorReading) :
    (Bool × ℚ) × MLSvc × MLDb :=
  if svc.model = none ∨ svc.scaler = false then
    match train_isolation_forest env svc db (dec 1) with
    | (.error _, svc2, db2) => ((false, 0), svc2, db2)
    | (.ok _ _ _, svc2, db2) => predictCore env svc2 db2 r
  else
    predictCore env svc db r

/-- Number of active `ml_models` rows of one kind; the claimed store
invariant is that this never exceeds 1. -/
def activeCount (db : MLDb) (model_type : String) : Nat :=
  (db.models.filter (fun m =>
    decide (m.model_type = model_type ∧ m.is_active = true))).length

/-- The reading of end-to-end scenario A:
`(vibration=2.6, strain=0.3, temperature=25)`. -/
def readingA : SensorReading :=
  { rid := 1, timestamp := 0, vibration := dec 26, strain := dec 3,
    temperature := dec 250 }

/-- A reading breaching only the vibration critical floor
(`vibration=3.0, strain=0.1, temperature=20`), not yet alerted. -/
def rC5 : SensorReading :=
  { rid := 7, timestamp := 0, vibration := dec 30, strain := dec 1,
    temperature := dec 200 }

/-- An alert environment with every collaborator healthy. -/
def envA : AlertEnv :=
  { now := 7200, mailConfigured := true, twilioConfigured := true,
    emailSendOk := fun _ => true, smsSendOk := fun _ => true,
    fatigueQueryOk := true }

/-- Environment `envA` with a failing mail gateway. -/
def envFailMail : AlertEnv := { envA with emailSendOk := fun _ => false }

/-- Environment `envA` whose fatigue count query raises. -/
def envNoQuery : AlertEnv := { envA with fatigueQueryOk := false }

/-- A successful warning-severity `alert_logs` row inside the trailing hour
of `envA.now`. -/
def warnLog (i : Nat) : AlertLog :=
  { reading_id := i, alert_type := "email", alert_level := "warning",
    recipient := "admin@example.com", message := "m", sent_at := 7000,
    success := true, error_message := none }

/-- Five successful warning alerts within the last hour. -/
def logs5 : List AlertLog := [warnLog 1, warnLog 2, warnLog 3, warnLog 4, warnLog 5]

/-- Reading `readingA` already marked alerted. -/
def rSent : SensorReading := { readingA with rid := 2, alert_sent := true }

/-- A healthy ML environment at epoch 0. -/
def envML : MLEnv :=
  { now := 0, fitOk := true, fitErrMsg := "", predictRaises := false,
    predictOutlier := fun _ => false, decisionScore := fun _ => 0 }

/-- An empty database. -/
def dbEmpty : MLDb := { readings := [], models := [], nextModelId := 1 }

/-- One in-window training reading. -/
def mkTrainReading (i : Nat) : SensorReading :=
  { rid := i, timestamp := 0, vibration := 1, strain := 0, temperature := 20 }

/-- A database with exactly 50 qualifying readings and no model rows. -/
def db50 : MLDb :=
  { readings := (List.range 50).map mkTrainReading, models := [], nextModelId := 1 }

/-- State after one successful training run on `db50`. -/
def trainOnce : TrainResult × MLSvc × MLDb :=
  train_isolation_forest envML MLSvc.init db50 (dec 1)

/-- State after a second successful training run. -/
def trainTwice : TrainResult × MLSvc × MLDb :=
  train_isolation_forest envML trainOnce.2.1 trainOnce.2.2 (dec 1)

/-- The single active snapshot of the C2 scenario, created at epoch 0. -/
def oldModel : MLModelRec :=
  { mid := 1, model_name := "isolation_forest_0", model_type := "IsolationForest",
    training_data_size := 100, created_at := 0, is_active := true,
    model_params := "" }

/-- A store holding only `oldModel` and no readings at all. -/
def dbOld : MLDb := { readings := [], models := [oldModel], nextModelId := 2 }

/-- Environment `envML` 200000 seconds later: the active snapshot is past the 24-hour
retrain interval. -/
def envLate : MLEnv := { envML with now := 200000 }

/-- Environment `envML` whose sklearn scale-and-fit sequence raises. -/
def envFitFail : MLEnv := { envML with fitOk := false, fitErrMsg := "fit raised" }

/-! ## Theorems: claim theorems, witnesses, counterexamples, helper lemmas -/

/-- Once the loop state reaches level `"critical"` it never leaves it: the
warning branch is guarded by `alert_level != 'critical'` and the other two
branches keep or re-set `"critical"`. -/
theorem checkThresholdsAux_critical_absorbs (r : SensorReading) :
    ∀ (tl : List (String × Limits)) (messages : List String),
      (checkThresholdsAux r tl "critical" messages).1 = "critical" := by
  intro tl
  induction tl with
  | nil => intro messages; rfl
  | cons p rest ih =>
    intro messages
    obtain ⟨sensor_type, limits⟩ := p
    simp only [checkThresholdsAux]
    split_ifs with h1 h2
    · exact ih _
    · exact absurd h2.2 (by simp)
    · exact ih _

/-- If any entry of the remaining table is breached at its critical floor,
the loop ends at level `"critical"`, from any starting state. -/
theorem checkThresholdsAux_critical_of_mem (r : SensorReading) :
    ∀ (tl : List (String × Limits)) (alert_level : String) (messages : List String),
      (∃ p ∈ tl, p.2.critical ≤ getMetric r p.1) →
      (checkThresholdsAux r tl alert_level messages).1 = "critical" := by
  intro tl
  induction tl with
  | nil =>
    intro _ _ h
    exact absurd h (by simp)
  | cons p rest ih =>
    intro alert_level messages h
    obtain ⟨sensor_type, limits⟩ := p
    obtain ⟨q, hq, hcrit⟩ := h
    simp only [checkThresholdsAux]
    rcases List.mem_cons.1 hq with heq | hmem
    · subst heq
      rw [if_pos hcrit]
      exact checkThresholdsAux_critical_absorbs r rest _
    · split_ifs with h1 h2
      · exact checkThresholdsAux_critical_absorbs r rest _
      · exact ih _ _ ⟨q, hmem, hcrit⟩
      · exact ih _ _ ⟨q, hmem, hcrit⟩

/-- C9: for the concrete reading `(vibration=2.6, strain=0.3, temperature=25)`
against the default threshold table, `check_thresholds` returns exactly
`("critical", ["Vibration critical: 2.6 >= 2.5"])`, that single message and
no others. -/
theorem C9_scenarioA :
    check_thresholds readingA = ("critical", ["Vibration critical: 2.6 >= 2.5"]) := by
  decide

/-- C5: for every reading, if any of the three metrics reaches its critical
floor in the threshold table, then the evaluator returns level `"critical"`,
regardless of the other metrics' values and of the order in which the table
entries are examined (any permutation of the table yields `"critical"`). -/
theorem C5_critical_floor_forces_critical (r : SensorReading)
    (h : dec 25 ≤ r.vibration ∨ dec 7 ≤ r.strain ∨ dec 400 ≤ r.temperature) :
    (check_thresholds r).1 = "critical" ∧
      ∀ tl : List (String × Limits), List.Perm tl ALERT_THRESHOLDS →
        (checkThresholdsAux r tl "normal" []).1 = "critical" := by
  have hmem : ∃ p ∈ ALERT_THRESHOLDS, p.2.critical ≤ getMetric r p.1 := by
    rcases h with h | h | h
    · exact ⟨("vibration", { warning := dec 20, critical := dec 25 }),
        by simp [ALERT_THRESHOLDS], h⟩
    · exact ⟨("strain", { warning := dec 5, critical := dec 7 }),
        by simp [ALERT_THRESHOLDS], h⟩
    · exact ⟨("temperature", { warning := dec 350, critical := dec 400 }),
        by simp [ALERT_THRESHOLDS], h⟩
  refine ⟨checkThresholdsAux_critical_of_mem r _ _ _ hmem, ?_⟩
  intro tl hperm
  obtain ⟨p, hp, hc⟩ := hmem
  exact checkThresholdsAux_critical_of_mem r _ _ _ ⟨p, hperm.mem_iff.2 hp, hc⟩

/-- Witness for C5 at the concrete reading `rC5`. -/
theorem C5_witness :
    (dec 25 ≤ rC5.vibration ∨ dec 7 ≤ rC5.strain ∨ dec 400 ≤ rC5.temperature)
      ∧ (check_thresholds rC5).1 = "critical" :=
  ⟨Or.inl (by decide),
   (C5_critical_floor_forces_critical rC5 (Or.inl (by decide))).1⟩

/-- C3: for every reading with `alert_sent=false` and warning or critical
level, if at least 5 successful `AlertLog` rows of that same severity have
timestamps within the trailing one-hour window, dispatch is suppressed: it
returns the fatigue result, writes no new log row, attempts no delivery and
leaves the reading (hence its `alert_sent=false` flag) unchanged. -/
theorem C3_fatigue_suppression (env : AlertEnv) (r : SensorReading)
    (alert_level : String) (messages : List String) (logs : List AlertLog)
    (hs : r.alert_sent = false)
    (hl : alert_level = "warning" ∨ alert_level = "critical")
    (hq : env.fatigueQueryOk = true)
    (hc : 5 ≤ (logs.filter (fun a => decide (a.alert_level = alert_level
            ∧ env.now - 3600 ≤ a.sent_at ∧ a.sent_at ≤ env.now
            ∧ a.success = true))).length) :
    check_and_send_alerts env r alert_level messages logs
      = (.fatigueSuppressed, r, logs) := by
  have hne : alert_level ≠ "normal" := by
    rcases hl with h | h <;> subst h <;> decide
  have hfat : check_alert_fatigue env logs alert_level = true := by
    unfold check_alert_fatigue
    rw [hq]
    simp only [if_true]
    refine decide_eq_true (le_trans hc ?_)
    refine List.Sublist.length_le (List.monotone_filter_right logs ?_)
    intro a ha
    have h' := of_decide_eq_true ha
    exact decide_eq_true ⟨h'.1, h'.2.1, h'.2.2.2⟩
  unfold check_and_send_alerts
  rw [if_neg hne]
  simp [hs, hfat]

/-- Witness for C3: five recent successful warning alerts suppress a sixth
warning dispatch for a fresh reading. -/
theorem C3_witness :
    rC5.alert_sent = false
    ∧ 5 ≤ (logs5.filter (fun a => decide (a.alert_level = "warning"
            ∧ envA.now - 3600 ≤ a.sent_at ∧ a.sent_at ≤ envA.now
            ∧ a.success = true))).length
    ∧ check_and_send_alerts envA rC5 "warning" [] logs5
        = (.fatigueSuppressed, rC5, logs5) :=
  ⟨rfl, by decide,
   C3_fatigue_suppression envA rC5 "warning" [] logs5 rfl (Or.inl rfl) rfl
     (by decide)⟩

/-- C4: dispatch is idempotent per reading.  A reading with
`alert_sent=true` makes any non-normal dispatch a strict no-op (the
`already sent` result, no delivery attempt, no state change), and a first
dispatch that did fire deliveries leaves a reading on which the repeated
call is such a no-op — so two calls yield exactly one set of attempts. -/
theorem C4_dispatch_idempotent (env env2 : AlertEnv) (r : SensorReading)
    (alert_level : String) (messages : List String) (logs : List AlertLog)
    (hl : alert_level ≠ "normal") :
    (r.alert_sent = true →
      check_and_send_alerts env r alert_level messages logs
        = (.alreadySent, r, logs))
    ∧ ∀ results r2 logs2,
        check_and_send_alerts env r alert_level messages logs
          = (.alertsSent results, r2, logs2) →
        check_and_send_alerts env2 r2 alert_level messages logs2
          = (.alreadySent, r2, logs2) := by
  constructor
  · intro hs
    unfold check_and_send_alerts
    rw [if_neg hl]
    simp [hs]
  · intro results r2 logs2 hfirst
    have hr2 : r2.alert_sent = true := by
      unfold check_and_send_alerts at hfirst
      rw [if_neg hl] at hfirst
      by_cases hs : r.alert_sent
      · simp [hs] at hfirst
      · simp only [hs, if_neg, Bool.false_eq_true, if_false] at hfirst
        by_cases hf : check_alert_fatigue env logs alert_level
        · simp [hf] at hfirst
        · simp only [hf, Bool.false_eq_true, if_false] at hfirst
          have h2 := congrArg (fun t => t.2.1.alert_sent) hfirst
          simpa using h2.symm
    unfold check_and_send_alerts
    rw [if_neg hl]
    simp [hr2]

/-- Witness for C4: a critical dispatch for the already-alerted `rSent` is
a no-op. -/
theorem C4_witness :
    check_and_send_alerts envA rSent "critical" [] []
      = (.alreadySent, rSent, []) :=
  (C4_dispatch_idempotent envA envA rSent "critical" [] [] (by decide)).1 rfl

/-- C6: a fresh non-normal reading that passes the fatigue gate is always
marked `alert_sent=true` when dispatch returns, whatever the gateway
outcomes; and a raising mail gateway is recorded as a `success=False`
`AlertLog` row rather than aborting the dispatch. -/
theorem C6_mark_sent_regardless (env : AlertEnv) (r : SensorReading)
    (alert_level : String) (messages : List String) (logs : List AlertLog)
    (recipient : String)
    (hl : alert_level ≠ "normal") (hs : r.alert_sent = false)
    (hf : check_alert_fatigue env logs alert_level = false) :
    (∃ results logs2,
        check_and_send_alerts env r alert_level messages logs
          = (.alertsSent results, { r with alert_sent := true }, logs2))
    ∧ (env.mailConfigured = true → env.emailSendOk recipient = false →
        (send_email_alert env r alert_level messages recipient logs).2
          = log_alert logs r.rid "email" alert_level recipient "" env.now false
              (some "Error sending email alert")) := by
  constructor
  · unfold check_and_send_alerts
    rw [if_neg hl]
    simp only [hs, hf, Bool.false_eq_true, if_false]
    exact ⟨_, _, rfl⟩
  · intro hm hok
    unfold send_email_alert
    rw [hm, hok]
    simp

/-- Witness for C6: with a raising mail gateway, a fresh critical reading
is still marked sent. -/
theorem C6_witness :
    check_alert_fatigue envFailMail [] "critical" = false
    ∧ ∃ results logs2,
        check_and_send_alerts envFailMail readingA "critical" ["m"] []
          = (.alertsSent results, { readingA with alert_sent := true }, logs2) :=
  ⟨rfl, (C6_mark_sent_regardless envFailMail readingA "critical" ["m"] []
     "admin@example.com" (by decide) rfl rfl).1⟩

/-- C10: the fatigue gate fails open — when the audit-log count query
raises, `_check_alert_fatigue` reports `False` for every severity, and a
fresh non-normal dispatch therefore proceeds to the delivery attempts
instead of being suppressed. -/
theorem C10_fatigue_fails_open (env : AlertEnv) (r : SensorReading)
    (alert_level : String) (messages : List String) (logs : List AlertLog)
    (hq : env.fatigueQueryOk = false)
    (hl : alert_level ≠ "normal") (hs : r.alert_sent = false) :
    check_alert_fatigue env logs alert_level = false
    ∧ ∃ results logs2,
        check_and_send_alerts env r alert_level messages logs
          = (.alertsSent results, { r with alert_sent := true }, logs2) := by
  have hf : check_alert_fatigue env logs alert_level = false := by
    unfold check_alert_fatigue
    rw [hq]
    simp
  refine ⟨hf, ?_⟩
  unfold check_and_send_alerts
  rw [if_neg hl]
  simp only [hs, hf, Bool.false_eq_true, if_false]
  exact ⟨_, _, rfl⟩

/-- Witness for C10: with a raising count query even a sixth warning in the
hour is dispatched, not suppressed. -/
theorem C10_witness :
    envNoQuery.fatigueQueryOk = false
    ∧ check_alert_fatigue envNoQuery logs5 "warning" = false
    ∧ ∃ results logs2,
        check_and_send_alerts envNoQuery rC5 "warning" [] logs5
          = (.alertsSent results, { rC5 with alert_sent := true }, logs2) :=
  ⟨rfl,
   (C10_fatigue_fails_open envNoQuery rC5 "warning" [] logs5 rfl (by decide) rfl).1,
   (C10_fatigue_fails_open envNoQuery rC5 "warning" [] logs5 rfl (by decide) rfl).2⟩

/-- C7: with fewer than 50 qualifying readings in the selection window,
either trainer returns the `Insufficient training data` error, writes no
`MLModel` row (the whole database is untouched) and leaves the in-memory
model and scaler unchanged. -/
theorem C7_insufficient_data (env : MLEnv) (svc : MLSvc) (db : MLDb)
    (contamination nu : ℚ)
    (h : (selectTraining env.now db.readings).length < 50) :
    train_isolation_forest env svc db contamination
      = (.error "Insufficient training data", svc, db)
    ∧ train_one_class_svm env svc db nu
      = (.error "Insufficient training data", svc, db) := by
  constructor
  · unfold train_isolation_forest
    rw [if_pos h]
  · unfold train_one_class_svm
    rw [if_pos h]

/-- Witness for C7 on the empty database. -/
theorem C7_witness :
    (selectTraining envML.now dbEmpty.readings).length < 50
    ∧ train_isolation_forest envML MLSvc.init dbEmpty (dec 1)
        = (.error "Insufficient training data", MLSvc.init, dbEmpty)
    ∧ train_one_class_svm envML MLSvc.init dbEmpty (dec 1)
        = (.error "Insufficient training data", MLSvc.init, dbEmpty) :=
  ⟨by decide,
   (C7_insufficient_data envML MLSvc.init dbEmpty (dec 1) (dec 1) (by decide)).1,
   (C7_insufficient_data envML MLSvc.init dbEmpty (dec 1) (dec 1) (by decide)).2⟩

/-- C8: the scorer never propagates a failure.  With no in-memory model (or
scaler) it lazily trains; if that bootstrap fails for any of its causes —
too few qualifying readings, or a raising sklearn fit — it returns the
non-anomalous default `(false, 0.0)`; and whenever the prediction path
raises internally the same default is returned, whatever state the scorer
is in. -/
theorem C8_score_never_raises (env : MLEnv) (svc : MLSvc) (db : MLDb)
    (r : SensorReading) :
    ((svc.model = none ∨ svc.scaler = false) →
      ((selectTraining env.now db.readings).length < 50 ∨ env.fitOk = false) →
      (predict_anomaly env svc db r).1 = (false, 0))
    ∧ (env.predictRaises = true →
        (predict_anomaly env svc db r).1 = (false, 0)) := by
  constructor
  · intro hb hfail
    unfold predict_anomaly
    rw [if_pos hb]
    unfold train_isolation_forest
    rcases hfail with hlen | hfit
    · rw [if_pos hlen]
    · by_cases hlen : (selectTraining env.now db.readings).length < 50
      · rw [if_pos hlen]
      · rw [if_neg hlen, if_pos hfit]
  · intro hp
    unfold predict_anomaly
    split_ifs with hb
    · rcases htrain : train_isolation_forest env svc db (dec 1) with ⟨t, svc2, db2⟩
      cases t with
      | error msg => simp
      | ok a b c => simp [predictCore, hp]
    · simp [predictCore, hp]

/-- Witness for C8: a fresh service over a database with 50 qualifying
readings but a raising sklearn fit returns the default score. -/
theorem C8_witness :
    (MLSvc.init.model = none ∨ MLSvc.init.scaler = false)
    ∧ ((selectTraining envFitFail.now db50.readings).length < 50
        ∨ envFitFail.fitOk = false)
    ∧ (predict_anomaly envFitFail MLSvc.init db50 readingA).1 = (false, 0) :=
  ⟨Or.inl rfl, Or.inr rfl,
   (C8_score_never_raises envFitFail MLSvc.init db50 readingA).1 (Or.inl rfl)
     (Or.inr rfl)⟩

/-- C1 (counterexample): two consecutive successful direct `train` calls on
an initially empty model store leave two `MLModel` rows of kind
`IsolationForest` with `active=true` — `train_isolation_forest` deactivates
nothing, so the at-most-one-active-snapshot-per-kind invariant claimed for
every train sequence is false. -/
theorem C1_counterexample :
    2 ≤ activeCount trainTwice.2.2 "IsolationForest" := by
  decide

/-- C1 (amended): a successful `train_isolation_forest` appends exactly one
new snapshot row, created with `active=true`, and deactivates nothing: every
previously active snapshot row is still present unchanged, so the number of
active `IsolationForest` snapshots grows by one (only `retrain_if_needed`
ever deactivates a snapshot, and only the single most recent active one). -/
theorem C1_train_appends_active (env : MLEnv) (svc : MLSvc) (db : MLDb) (c : ℚ)
    (hlen : ¬ (selectTraining env.now db.readings).length < 50)
    (hfit : env.fitOk = true) :
    (train_isolation_forest env svc db c).2.2.models
      = db.models ++ [mkIsoRec env.now db.nextModelId
          (selectTraining env.now db.readings).length c]
    ∧ activeCount (train_isolation_forest env svc db c).2.2 "IsolationForest"
      = activeCount db "IsolationForest" + 1 := by
  have hfit' : ¬ env.fitOk = false := by rw [hfit]; simp
  unfold train_isolation_forest
  rw [if_neg hlen, if_neg hfit']
  refine ⟨rfl, ?_⟩
  unfold activeCount
  rw [List.filter_append, List.length_append]
  congr 1

/-- Witness for C1's amended statement on the 50-reading database. -/
theorem C1_amended_witness :
    (¬ (selectTraining envML.now db50.readings).length < 50)
    ∧ activeCount (train_isolation_forest envML MLSvc.init db50 (dec 1)).2.2
        "IsolationForest"
      = activeCount db50 "IsolationForest" + 1 :=
  ⟨by decide,
   (C1_train_appends_active envML MLSvc.init db50 (dec 1) (by decide) rfl).2⟩

/-- C2 (code-bug evidence): with one active snapshot older than the retrain
interval and no qualifying readings, `retrain_if_needed` deactivates and
commits the old snapshot before training; the training step then fails with
`Insufficient training data`, and the store ends with zero active snapshots
of the kind — the previously active snapshot does not remain active, so the
deactivate–activate pair is not atomic under a training failure. -/
theorem C2_failed_retrain_loses_active_model :
    retrain_if_needed envLate MLSvc.init dbOld
      = (.trained (.error "Insufficient training data"), MLSvc.init,
         deactivateModel dbOld 1)
    ∧ activeCount dbOld "IsolationForest" = 1
    ∧ activeCount (retrain_if_needed envLate MLSvc.init dbOld).2.2
        "IsolationForest" = 0 := by
  exact ⟨by decide, by decide, by decide⟩

end SHM
